import Mathlib

/-!
Verification development for the repository `xjliu-uwclimaterisk/diffusion`,
whose single source file is the Jupyter notebook `src/train_exp.ipynb`.

The notebook is glue code over external libraries (diffusers, torch,
accelerate, datasets), so the embedding works at two levels, both read
directly off the notebook source:

1. a token-level transcription of every code cell, following the Python
   tokenizer: comments are dropped, physical newlines inside an open
   bracket are dropped (Python emits them as the ignored `NL` token), a
   logical end of line at bracket depth zero is the token `nlT`, string
   tokens carry their content without the surrounding quotes, f-string
   tokens carry their template, and IPython shell-escape lines are
   `magicT` tokens. Indentation is not represented at this level; the
   block structure of the two locally defined functions is captured
   separately by an abstract syntax tree below.

2. an abstract syntax tree of the two functions the notebook defines
   (`evaluate` and `train_loop`), with the nesting exactly as the source
   indentation has it, together with a small name-resolution semantics
   and models of the filesystem writes and of the seeded sampling that
   the source performs through external calls.
-/

set_option maxRecDepth 40000

namespace TrainExp

/-- Kind of a Python token in the transcription of a notebook code cell. -/
inductive TokKind where
  | kw    : TokKind
  | name  : TokKind
  | num   : TokKind
  | str   : TokKind
  | fstr  : TokKind
  | op    : TokKind
  | nl    : TokKind
  | magic : TokKind
deriving DecidableEq, Repr

/-- A token is its kind together with its text. String and f-string tokens
carry the literal content without the enclosing quote characters. -/
abbrev Tok := TokKind × String

/-- Keyword token. -/
def kwT (s : String) : Tok := (TokKind.kw, s)

/-- Identifier token. -/
def nameT (s : String) : Tok := (TokKind.name, s)

/-- Numeric literal token, carrying the literal text. -/
def numT (s : String) : Tok := (TokKind.num, s)

/-- String literal token, carrying the content without quotes. -/
def strT (s : String) : Tok := (TokKind.str, s)

/-- Formatted string literal token, carrying the template without quotes. -/
def fstrT (s : String) : Tok := (TokKind.fstr, s)

/-- Operator or punctuation token. -/
def opT (s : String) : Tok := (TokKind.op, s)

/-- Logical end of line at bracket depth zero (Python NEWLINE token). -/
def nlT : Tok := (TokKind.nl, "")

/-- IPython shell-escape line (not plain Python). -/
def magicT (s : String) : Tok := (TokKind.magic, s)

/-- Code cell 0 of the notebook: the pip install shell escape. -/
def cellPipInstall : List Tok :=
  [magicT ("pip install diffusers[training]")]

/-- Code cell 1 of the notebook: the `TrainingConfig` class definition and
`config = TrainingConfig()`. The `hub_model_id` line is transcribed token
for token: after the string literal come the operators `/` and `<`, then
the bare names `my`, `awesome`, `model` separated by `-`, then `>`. -/
def cellConfig : List Tok :=
  [kwT ("from"), nameT ("dataclasses"), kwT ("import"), nameT ("dataclasses"), nlT,
   opT ("@"), nameT ("dataclasses"), nlT,
   kwT ("class"), nameT ("TrainingConfig"), opT (":"), nlT,
   nameT ("image_size"), opT ("="), numT ("128"), nlT,
   nameT ("train_batch_size"), opT ("="), numT ("16"), nlT,
   nameT ("eval_batch_size"), opT ("="), numT ("16"), nlT,
   nameT ("num_epochs"), opT ("="), numT ("50"), nlT,
   nameT ("gradient_accumulation_steps"), opT ("="), numT ("1"), nlT,
   nameT ("learning_rate"), opT ("="), numT ("1e-4"), nlT,
   nameT ("lr_warmup_steps"), opT ("="), numT ("500"), nlT,
   nameT ("save_image_epochs"), opT ("="), numT ("10"), nlT,
   nameT ("save_model_epochs"), opT ("="), numT ("30"), nlT,
   nameT ("mixed_precision"), opT ("="), strT ("fp16"), nlT,
   nameT ("output_dir"), opT ("="), strT ("ddpm-butterflies-128"), nlT,
   nameT ("push_to_hub"), opT ("="), kwT ("False"), nlT,
   nameT ("hub_model_id"), opT ("="), strT ("<your-username>"), opT ("/"), opT ("<"),
     nameT ("my"), opT ("-"), nameT ("awesome"), opT ("-"), nameT ("model"), opT (">"), nlT,
   nameT ("hub_private_repo"), opT ("="), kwT ("None"), nlT,
   nameT ("overwrite_output_dir"), opT ("="), kwT ("True"), nlT,
   nameT ("seed"), opT ("="), numT ("0"), nlT,
   nameT ("config"), opT ("="), nameT ("TrainingConfig"), opT ("("), opT (")"), nlT]

/-- Code cell 2 of the notebook: dataset loading, including the assignment
`config.dataset_name = "huggan/smithsonian_butterflies_subset"`. -/
def cellLoadDataset : List Tok :=
  [kwT ("from"), nameT ("dataset"), kwT ("import"), nameT ("load_dataset"), nlT,
   nameT ("config"), opT ("."), nameT ("dataset_name"), opT ("="),
     strT ("huggan/smithsonian_butterflies_subset"), nlT,
   nameT ("dataset"), opT ("="), nameT ("load_dataset"), opT ("("),
     nameT ("config"), opT ("."), nameT ("dataset_name"), opT (","),
     nameT ("split"), opT ("="), strT ("train"), opT (")"), nlT]

/-- Code cell 3 of the notebook: matplotlib preview of four dataset images. -/
def cellShowImages : List Tok :=
  [kwT ("import"), nameT ("matplotlib"), opT ("."), nameT ("pyplot"), kwT ("as"), nameT ("plt"), nlT,
   nameT ("fig"), opT (","), nameT ("axs"), opT ("="), nameT ("plt"), opT ("."), nameT ("subplots"),
     opT ("("), numT ("1"), opT (","), numT ("4"), opT (","),
     nameT ("figsize"), opT ("="), opT ("("), numT ("16"), opT (","), numT ("4"), opT (")"), opT (")"), nlT,
   kwT ("for"), nameT ("i"), opT (","), nameT ("image"), kwT ("in"), nameT ("enumerate"),
     opT ("("), nameT ("dataset"), opT ("["), opT (":"), numT ("4"), opT ("]"),
     opT ("["), strT ("image"), opT ("]"), opT (")"), opT (":"), nlT,
   nameT ("axs"), opT ("["), nameT ("i"), opT ("]"), opT ("."), nameT ("imshow"),
     opT ("("), nameT ("image"), opT (")"), nlT,
   nameT ("axs"), opT ("["), nameT ("i"), opT ("]"), opT ("."), nameT ("set_axis_off"),
     opT ("("), opT (")"), nlT,
   nameT ("fig"), opT ("."), nameT ("show"), opT ("("), opT (")"), nlT]

/-- Code cell 4 of the notebook: the torchvision preprocessing pipeline. -/
def cellPreprocess : List Tok :=
  [kwT ("from"), nameT ("torchvision"), kwT ("import"), nameT ("transforms"), nlT,
   nameT ("preprocess"), opT ("="), nameT ("transforms"), opT ("."), nameT ("Compose"),
     opT ("("), opT ("["),
     nameT ("transforms"), opT ("."), nameT ("Resize"), opT ("("), opT ("("),
       nameT ("config"), opT ("."), nameT ("image_size"), opT (","),
       nameT ("config"), opT ("."), nameT ("image_size"), opT (")"), opT (")"), opT (","),
     nameT ("transforms"), opT ("."), nameT ("RandomHorizontalFlip"), opT ("("), opT (")"), opT (","),
     nameT ("transforms"), opT ("."), nameT ("ToTensor"), opT ("("), opT (")"), opT (","),
     nameT ("transforms"), opT ("."), nameT ("Normalize"), opT ("("),
       opT ("["), numT ("0.5"), opT ("]"), opT (","), opT ("["), numT ("0.5"), opT ("]"), opT (")"), opT (","),
     opT ("]"), opT (")"), nlT]

/-- Code cell 5 of the notebook: the `transform` function and `set_transform`. -/
def cellSetTransform : List Tok :=
  [kwT ("def"), nameT ("transform"), opT ("("), nameT ("examples"), opT (")"), opT (":"), nlT,
   nameT ("images"), opT ("="), opT ("["), nameT ("preprocess"), opT ("("),
     nameT ("image"), opT ("."), nameT ("convert"), opT ("("), strT ("RGB"), opT (")"), opT (")"),
     kwT ("for"), nameT ("image"), kwT ("in"), nameT ("examples"),
     opT ("["), strT ("image"), opT ("]"), opT ("]"), nlT,
   kwT ("return"), opT ("\x7b"), strT ("images"), opT (":"), nameT ("images"), opT ("\x7d"), nlT,
   nameT ("dataset"), opT ("."), nameT ("set_transform"), opT ("("), nameT ("transform"), opT (")"), nlT]

/-- Code cell 6 of the notebook: the training dataloader. -/
def cellDataloader : List Tok :=
  [kwT ("import"), nameT ("torch"), nlT,
   nameT ("train_dataloader"), opT ("="), nameT ("torch"), opT ("."), nameT ("utils"),
     opT ("."), nameT ("data"), opT ("."), nameT ("DataLoader"), opT ("("),
     nameT ("dataset"), opT (","),
     nameT ("batch_size"), opT ("="), nameT ("config"), opT ("."), nameT ("train_batch_size"), opT (","),
     nameT ("shuffle"), opT ("="), kwT ("True"), opT (")"), nlT]

/-- Code cell 7 of the notebook: the `UNet2DModel` construction. The closing
parenthesis of the `down_block_types` tuple is directly followed by the
identifier `up_block_types` with no comma in between, exactly as in the
source. -/
def cellUNetModel : List Tok :=
  [kwT ("from"), nameT ("diffusers"), kwT ("import"), nameT ("UNet2DModel"), nlT,
   nameT ("model"), opT ("="), nameT ("UNet2DModel"), opT ("("),
     nameT ("sample_size"), opT ("="), nameT ("config"), opT ("."), nameT ("sample_size"), opT (","),
     nameT ("in_channels"), opT ("="), numT ("3"), opT (","),
     nameT ("out_channels"), opT ("="), numT ("3"), opT (","),
     nameT ("layers_per_block"), opT ("="), numT ("2"), opT (","),
     nameT ("block_out_channels"), opT ("="), opT ("("),
       numT ("128"), opT (","), numT ("128"), opT (","), numT ("256"), opT (","),
       numT ("256"), opT (","), numT ("512"), opT (","), numT ("512"), opT (")"), opT (","),
     nameT ("down_block_types"), opT ("="), opT ("("),
       strT ("Downblock2D"), opT (","), strT ("Downblock2D"), opT (","), strT ("Downblock2D"), opT (","),
       strT ("Downblock2D"), opT (","), strT ("AttnDownblock2D"), opT (","), strT ("Downblock2D"), opT (","),
       opT (")"),
     nameT ("up_block_types"), opT ("="), opT ("("),
       strT ("Upblock2D"), opT (","), strT ("AttnUpblock2D"), opT (","), strT ("Upblock2D"), opT (","),
       strT ("Upblock2D"), opT (","), strT ("Upblock2D"), opT (","), strT ("Upblock2D"), opT (","),
       opT (")"), opT (","),
     opT (")"), nlT]

/-- Code cell 8 of the notebook: the sample-image shape check. -/
def cellSampleShape : List Tok :=
  [nameT ("sample_image"), opT ("="), nameT ("dataset"), opT ("["), numT ("0"), opT ("]"),
     opT ("["), strT ("images"), opT ("]"), opT ("."), nameT ("unsqueeze"), opT ("("), numT ("0"), opT (")"), nlT,
   nameT ("print"), opT ("("), strT ("Input shape:"), opT (","),
     nameT ("sample_image"), opT ("."), nameT ("shape"), opT (")"), nlT,
   nameT ("print"), opT ("("), strT ("Output shape:"), opT (")"), opT (","),
     nameT ("model"), opT ("("), nameT ("sample_image"), opT (","),
     nameT ("timestep"), opT ("="), numT ("0"), opT (")"),
     opT ("."), nameT ("sample"), opT ("."), nameT ("shape"), nlT]

/-- Code cell 9 of the notebook: the DDPM scheduler demonstration. The
argument of `add_noise` is the misspelled name `sample_iamge`. -/
def cellScheduler : List Tok :=
  [kwT ("import"), nameT ("torch"), nlT,
   kwT ("from"), nameT ("PIL"), kwT ("import"), nameT ("Image"), nlT,
   kwT ("from"), nameT ("diffusers"), kwT ("import"), nameT ("DDPMScheduler"), nlT,
   nameT ("noise_scheduler"), opT ("="), nameT ("DDPMScheduler"), opT ("("),
     nameT ("num_train_timesteps"), opT ("="), numT ("1000"), opT (")"), nlT,
   nameT ("noise"), opT ("="), nameT ("torch"), opT ("."), nameT ("randn"), opT ("("),
     nameT ("sample_image"), opT ("."), nameT ("shape"), opT (")"), nlT,
   nameT ("timesteps"), opT ("="), nameT ("torch"), opT ("."), nameT ("LongTensor"), opT ("("),
     opT ("["), numT ("50"), opT ("]"), opT (")"), nlT,
   nameT ("noisy_image"), opT ("="), nameT ("noise_scheduler"), opT ("."), nameT ("add_noise"), opT ("("),
     nameT ("sample_iamge"), opT (","), nameT ("noise"), opT (","), nameT ("timesteps"), opT (")"), nlT,
   nameT ("Image"), opT ("."), nameT ("fromarray"), opT ("("), opT ("("), opT ("("),
     nameT ("noisy_image"), opT ("."), nameT ("permute"), opT ("("),
     numT ("0"), opT (","), numT ("2"), opT (","), numT ("3"), opT (","), numT ("1"), opT (")"),
     opT ("+"), numT ("1.0"), opT (")"), opT ("*"), numT ("127.5"), opT (")"),
     opT ("."), nameT ("type"), opT ("("), nameT ("torch"), opT ("."), nameT ("uint8"), opT (")"),
     opT ("."), nameT ("numpy"), opT ("("), opT (")"), opT ("["), numT ("0"), opT ("]"), opT (")"), nlT]

/-- Code cell 10 of the notebook: the one-step loss demonstration. -/
def cellLossDemo : List Tok :=
  [kwT ("import"), nameT ("torch"), opT ("."), nameT ("nn"), opT ("."), nameT ("functional"),
     kwT ("as"), nameT ("F"), nlT,
   nameT ("noise_pred"), opT ("="), nameT ("model"), opT ("("),
     nameT ("noisy_image"), opT (","), nameT ("timesteps"), opT (")"), opT ("."), nameT ("sample"), nlT,
   nameT ("loss"), opT ("="), nameT ("F"), opT ("."), nameT ("mse_loss"), opT ("("),
     nameT ("noise_pred"), opT (","), nameT ("noise"), opT (")"), nlT]

/-- Code cell 11 of the notebook: optimizer and learning-rate schedule. The
call to `get_cosine_schedule_with_warmup` is never closed: the cell ends
inside its parenthesized argument list, so the transcription ends at
bracket depth one with no trailing NEWLINE. -/
def cellOptimizer : List Tok :=
  [kwT ("from"), nameT ("diffusers"), opT ("."), nameT ("optimization"),
     kwT ("import"), nameT ("get_cosine_schedule_with_warmup"), nlT,
   kwT ("from"), nameT ("torch"), opT ("."), nameT ("optim"), kwT ("import"), nameT ("AdamW"), nlT,
   nameT ("optimizer"), opT ("="), nameT ("AdamW"), opT ("("),
     nameT ("model"), opT ("."), nameT ("parameters"), opT ("("), opT (")"), opT (","),
     nameT ("lr"), opT ("="), nameT ("config"), opT ("."), nameT ("learning_rate"), opT (")"), nlT,
   nameT ("lr_scheduler"), opT ("="), nameT ("get_cosine_schedule_with_warmup"), opT ("("),
     nameT ("optimizer"), opT ("="), nameT ("optimizer"), opT (","),
     nameT ("num_warmup_steps"), opT ("="), nameT ("config"), opT ("."), nameT ("lr_warmup_steps"), opT (","),
     nameT ("num_training_steps"), opT ("="), opT ("("),
     nameT ("len"), opT ("("), nameT ("train_dataloader"), opT (")"), opT ("*"),
     nameT ("config"), opT ("."), nameT ("num_epochs"), opT (")"), opT (",")]

/-- Code cell 12 of the notebook: the definition of `evaluate`. -/
def cellEvaluateDef : List Tok :=
  [kwT ("from"), nameT ("diffusers"), kwT ("import"), nameT ("DDPMPipeline"), nlT,
   kwT ("from"), nameT ("diffusers"), opT ("."), nameT ("util"),
     kwT ("import"), nameT ("make_image_grid"), nlT,
   kwT ("import"), nameT ("os"), nlT,
   kwT ("def"), nameT ("evaluate"), opT ("("), nameT ("config"), opT (","),
     nameT ("epoch"), opT (","), nameT ("pipeline"), opT (")"), opT (":"), nlT,
   nameT ("images"), opT ("="), nameT ("pipeline"), opT ("("),
     nameT ("batch_size"), opT ("="), nameT ("config"), opT ("."), nameT ("eval_batch_size"), opT (","),
     nameT ("generator"), opT ("="), nameT ("torch"), opT ("."), nameT ("Generator"), opT ("("),
       nameT ("device"), opT ("="), strT ("cpu"), opT (")"),
       opT ("."), nameT ("manual_seed"), opT ("("),
       nameT ("config"), opT ("."), nameT ("seed"), opT (")"), opT (","),
     opT (")"), opT ("."), nameT ("images"), nlT,
   nameT ("image_grid"), opT ("="), nameT ("make_image_grid"), opT ("("),
     nameT ("images"), opT (","), nameT ("rows"), opT ("="), numT ("4"), opT (","),
     nameT ("cols"), opT ("="), numT ("4"), opT (")"), nlT,
   nameT ("test_dir"), opT ("="), nameT ("os"), opT ("."), nameT ("path"), opT ("."), nameT ("join"),
     opT ("("), nameT ("config"), opT ("."), nameT ("output_dir"), opT (","),
     strT ("test_images"), opT (")"), nlT,
   nameT ("os"), opT ("."), nameT ("makedirs"), opT ("("), nameT ("test_dir"), opT (","),
     nameT ("exist_ok"), opT ("="), kwT ("True"), opT (")"), nlT,
   nameT ("image_grid"), opT ("."), nameT ("save"), opT ("("),
     fstrT ("\x7btest_dir\x7d/\x7bepoch:04d\x7d.png"), opT (")"), nlT]

/-- Code cell 13 of the notebook: the definition of `train_loop`. -/
def cellTrainLoopDef : List Tok :=
  [kwT ("from"), nameT ("accelerate"), kwT ("import"), nameT ("Accelerator"), nlT,
   kwT ("from"), nameT ("tqdm"), opT ("."), nameT ("auto"), kwT ("import"), nameT ("tqdm"), nlT,
   kwT ("from"), nameT ("pathlib"), kwT ("import"), nameT ("Path"), nlT,
   kwT ("import"), nameT ("os"), nlT,
   kwT ("def"), nameT ("train_loop"), opT ("("), nameT ("config"), opT (","),
     nameT ("model"), opT (","), nameT ("noise_scheduler"), opT (","), nameT ("optimizer"), opT (","),
     nameT ("train_dataloader"), opT (","), nameT ("lr_scheduler"), opT (")"), opT (":"), nlT,
   nameT ("accelerator"), opT ("="), nameT ("Accelerator"), opT ("("),
     nameT ("mixed_precision"), opT ("="), nameT ("config"), opT ("."), nameT ("mixed_precision"), opT (","),
     nameT ("gradient_accumulation_steps"), opT ("="),
       nameT ("config"), opT ("."), nameT ("gradient_accumulation_steps"), opT (","),
     nameT ("log_with"), opT ("="), strT ("tensorboard"), opT (","),
     nameT ("project_dir"), opT ("="), nameT ("os"), opT ("."), nameT ("path"), opT ("."), nameT ("join"),
       opT ("("), nameT ("config"), opT ("."), nameT ("output_dir"), opT (","), strT ("logs"), opT (")"), opT (","),
     opT (")"), nlT,
   kwT ("if"), nameT ("accelerator"), opT ("."), nameT ("is_main_process"), opT (":"), nlT,
   kwT ("if"), nameT ("config"), opT ("."), nameT ("output_dir"), kwT ("is"), kwT ("not"), kwT ("None"), opT (":"), nlT,
   nameT ("os"), opT ("."), nameT ("makedirs"), opT ("("),
     nameT ("config"), opT ("."), nameT ("output_dir"), opT (","),
     nameT ("exist_ok"), opT ("="), kwT ("True"), opT (")"), nlT,
   kwT ("if"), nameT ("config"), opT ("."), nameT ("push_to_hub"), opT (":"), nlT,
   nameT ("repo_id"), opT ("="), nameT ("create_repo"), opT ("("),
     nameT ("repo_id"), opT ("="), nameT ("config"), opT ("."), nameT ("hub_model_id"),
     kwT ("or"), nameT ("Path"), opT ("("), nameT ("config"), opT ("."), nameT ("output_dir"), opT (")"),
     opT ("."), nameT ("name"), opT (","),
     nameT ("exist_ok"), opT ("="), kwT ("True"), opT (")"), opT ("."), nameT ("repo_id"), nlT,
   nameT ("accelerator"), opT ("."), nameT ("init_trackers"), opT ("("), strT ("train_example"), opT (")"), nlT,
   nameT ("model"), opT (","), nameT ("optimizer"), opT (","), nameT ("train_dataloader"), opT (","),
     nameT ("lr_scheduler"), opT ("="), nameT ("accelerator"), opT ("."), nameT ("prepare"), opT ("("),
     nameT ("model"), opT (","), nameT ("optimizer"), opT (","), nameT ("train_dataloader"), opT (","),
     nameT ("lr_scheduler"), opT (")"), nlT,
   nameT ("global_step"), opT ("="), numT ("0"), nlT,
   kwT ("for"), nameT ("epoch"), kwT ("in"), nameT ("range"), opT ("("),
     nameT ("config"), opT ("."), nameT ("num_epochs"), opT (")"), opT (":"), nlT,
   nameT ("progress_bar"), opT ("="), nameT ("tqdm"), opT ("("),
     nameT ("total"), opT ("="), nameT ("len"), opT ("("), nameT ("train_dataloader"), opT (")"), opT (","),
     nameT ("disable"), opT ("="), kwT ("not"),
     nameT ("accelerator"), opT ("."), nameT ("is_local_main_process"), opT (")"), nlT,
   nameT ("progress_bar"), opT ("."), nameT ("set_description"), opT ("("),
     fstrT ("Epoch \x7bepoch\x7d"), opT (")"), nlT,
   kwT ("for"), nameT ("step"), opT (","), nameT ("batch"), kwT ("in"), nameT ("enumerate"),
     opT ("("), nameT ("train_dataloader"), opT (")"), opT (":"), nlT,
   nameT ("clean_images"), opT ("="), nameT ("batch"), opT ("["), strT ("images"), opT ("]"), nlT,
   nameT ("noise"), opT ("="), nameT ("torch"), opT ("."), nameT ("randn"), opT ("("),
     nameT ("clean_images"), opT ("."), nameT ("shape"), opT (","),
     nameT ("device"), opT ("="), nameT ("clean_images"), opT ("."), nameT ("device"), opT (")"), nlT,
   nameT ("bs"), opT ("="), nameT ("clean_images"), opT ("."), nameT ("shape"), opT ("["), numT ("0"), opT ("]"), nlT,
   nameT ("timesteps"), opT ("="), nameT ("torch"), opT ("."), nameT ("randint"), opT ("("),
     numT ("0"), opT (","), nameT ("noise_scheduler"), opT ("."), nameT ("num_timesteps"), opT (","),
     opT ("("), nameT ("bs"), opT (","), opT (")"), opT (","),
     nameT ("device"), opT ("="), nameT ("clean_images"), opT ("."), nameT ("device"), opT (","),
     nameT ("dtype"), opT ("="), nameT ("torch"), opT ("."), nameT ("int64"), opT (")"), nlT,
   nameT ("noise_images"), opT ("="), nameT ("noise_scheduler"), opT ("."), nameT ("add_noise"),
     opT ("("), nameT ("clean_images"), opT (","), nameT ("noise"), opT (","), nameT ("timesteps"), opT (")"), nlT,
   kwT ("with"), nameT ("accelerator"), opT ("."), nameT ("accumulate"), opT ("("),
     nameT ("model"), opT (")"), opT (":"), nlT,
   nameT ("noise_pred"), opT ("="), nameT ("model"), opT ("("),
     nameT ("noisy_images"), opT (","), nameT ("timesteps"), opT (","),
     nameT ("return_dict"), opT ("="), kwT ("False"), opT (")"), opT ("["), numT ("0"), opT ("]"), nlT,
   nameT ("loss"), opT ("="), nameT ("F"), opT ("."), nameT ("mse_loss"), opT ("("),
     nameT ("noise_pred"), opT (","), nameT ("noise"), opT (")"), nlT,
   nameT ("accelerator"), opT ("."), nameT ("backward"), opT ("("), nameT ("loss"), opT (")"), nlT,
   kwT ("if"), nameT ("accelerator"), opT ("."), nameT ("sync_gradients"), opT (":"), nlT,
   nameT ("accelerator"), opT ("."), nameT ("clip_grad_norm_"), opT ("("),
     nameT ("model"), opT ("."), nameT ("parameters"), opT ("("), opT (")"), opT (","),
     numT ("1.0"), opT (")"), nlT,
   nameT ("optimizer"), opT ("."), nameT ("step"), opT ("("), opT (")"), nlT,
   nameT ("lr_scheduler"), opT ("."), nameT ("step"), opT ("("), opT (")"), nlT,
   nameT ("optimizer"), opT ("."), nameT ("zero_grad"), opT ("("), opT (")"), nlT,
   nameT ("progress_bar"), opT ("."), nameT ("update"), opT ("("), numT ("1"), opT (")"), nlT,
   nameT ("logs"), opT ("="), opT ("\x7b"),
     strT ("loss"), opT (":"), nameT ("loss"), opT ("."), nameT ("detach"), opT ("("), opT (")"),
       opT ("."), nameT ("item"), opT ("("), opT (")"), opT (","),
     strT ("lr"), opT (":"), nameT ("lr_scheduler"), opT ("."), nameT ("get_last_lr"),
       opT ("("), opT (")"), opT ("["), numT ("0"), opT ("]"), opT (","),
     strT ("step"), opT (":"), nameT ("global_step"), opT ("\x7d"), nlT,
   nameT ("progress_bar"), opT ("."), nameT ("set_postfix"), opT ("("), opT ("**"), nameT ("logs"), opT (")"), nlT,
   nameT ("accelerator"), opT ("."), nameT ("log"), opT ("("), nameT ("logs"), opT (","),
     nameT ("step"), opT ("="), nameT ("global_step"), opT (")"), nlT,
   nameT ("global_step"), opT ("+="), numT ("1"), nlT,
   kwT ("if"), nameT ("accelerator"), opT ("."), nameT ("is_main_process"), opT (":"), nlT,
   nameT ("pipeline"), opT ("="), nameT ("DDPMPipeline"), opT ("("),
     nameT ("unet"), opT ("="), nameT ("accelerator"), opT ("."), nameT ("unwrap_model"),
     opT ("("), nameT ("model"), opT (")"), opT (","),
     nameT ("scheduler"), opT ("="), nameT ("noise_scheduler"), opT (")"), nlT,
   kwT ("if"), opT ("("), nameT ("epoch"), opT ("+"), numT ("1"), opT (")"), opT ("%"),
     nameT ("config"), opT ("."), nameT ("save_model_epochs"), opT ("=="), numT ("0"),
     kwT ("or"), nameT ("epoch"), opT ("=="),
     nameT ("config"), opT ("."), nameT ("num_epochs"), opT ("-"), numT ("1"), opT (":"), nlT,
   kwT ("if"), nameT ("config"), opT ("."), nameT ("push_to_hub"), opT (":"), nlT,
   nameT ("upload_folder"), opT ("("),
     nameT ("repo_id"), opT ("="), nameT ("repo_id"), opT (","),
     nameT ("folder_path"), opT ("="), nameT ("config"), opT ("."), nameT ("output_dir"), opT (","),
     nameT ("commit_message"), opT ("="), fstrT ("Epoch \x7bepoch\x7d"), opT (","),
     nameT ("ignore_patterns"), opT ("="), opT ("["),
       strT ("step_*"), opT (","), strT ("epoch_*"), opT ("]"), opT (","),
     opT (")"), nlT,
   kwT ("else"), opT (":"), nlT,
   nameT ("pipeline"), opT ("."), nameT ("save_pretrained"), opT ("("),
     nameT ("config"), opT ("."), nameT ("output_dir"), opT (")"), nlT]

/-- Code cell 14 of the notebook: the single launcher call. -/
def cellLauncher : List Tok :=
  [kwT ("from"), nameT ("accelerate"), kwT ("import"), nameT ("notebook_launcher"), nlT,
   nameT ("args"), opT ("="), opT ("("), nameT ("config"), opT (","), nameT ("model"), opT (","),
     nameT ("noise_scheduler"), opT (","), nameT ("optimizer"), opT (","),
     nameT ("train_dataloader"), opT (","), nameT ("lr_scheduler"), opT (")"), nlT,
   nameT ("notebook_launcher"), opT ("("), nameT ("train_loop"), opT (","),
     nameT ("args"), opT (","), nameT ("num_processes"), opT ("="), numT ("1"), opT (")"), nlT]

/-- Code cell 15 of the notebook: displaying the final sample image. -/
def cellFinalImages : List Tok :=
  [kwT ("import"), nameT ("glob"), nlT,
   nameT ("sampel_images"), opT ("="), nameT ("sorted"), opT ("("),
     nameT ("glob"), opT ("."), nameT ("glob"), opT ("("),
     fstrT ("\x7bconfig.output_dir\x7d/samples/*.png"), opT (")"), opT (")"), nlT,
   nameT ("Image"), opT ("."), nameT ("open"), opT ("("),
     nameT ("sample_images"), opT ("["), opT ("-"), numT ("1"), opT ("]"), opT (")"), nlT]

/-- All sixteen code cells of the notebook, in notebook order. -/
def codeCells : List (List Tok) :=
  [cellPipInstall, cellConfig, cellLoadDataset, cellShowImages, cellPreprocess,
   cellSetTransform, cellDataloader, cellUNetModel, cellSampleShape, cellScheduler,
   cellLossDemo, cellOptimizer, cellEvaluateDef, cellTrainLoopDef, cellLauncher,
   cellFinalImages]

/-- Opening bracket operators of Python. -/
def isOpenBr (s : String) : Bool := s = "(" || s = "[" || s = "\x7b"

/-- Closing bracket operators of Python. -/
def isCloseBr (s : String) : Bool := s = ")" || s = "]" || s = "\x7d"

/-- Matching test for an opening and a closing bracket. -/
def closesBr (o c : String) : Bool :=
  (o = "(" && c = ")") || (o = "[" && c = "]") || (o = "\x7b" && c = "\x7d")

/-- Helper for `bracketsBalanced`: the first argument is the stack of
currently open brackets, innermost first. -/
def balancedFrom : List String → List Tok → Bool
  | stk, [] => stk.isEmpty
  | stk, (k, s) :: ts =>
    if k = TokKind.op then
      if isOpenBr s then balancedFrom (s :: stk) ts
      else if isCloseBr s then
        match stk with
        | [] => false
        | o :: stk0 => closesBr o s && balancedFrom stk0 ts
      else balancedFrom stk ts
    else balancedFrom stk ts

/-- A cell has balanced brackets when every `(`, `[`, `\x7b` is closed by the
matching closer and nothing is left open at the end of the cell. CPython
compiles a cell as a whole before running any of it, and a cell whose
brackets are unbalanced at end of input is a syntax error. -/
def bracketsBalanced (c : List Tok) : Bool := balancedFrom [] c

/-- Scan for the token adjacency `/` `<`. Python has no token `/<`, and in
the Python grammar the binary comparison operator `<` can never directly
follow the binary operator `/`, since `<` cannot begin an operand; a token
stream containing this adjacency is rejected by the CPython parser. -/
def slashThenLess : List Tok → Bool
  | (k1, s1) :: (k2, s2) :: ts =>
    (k1 = TokKind.op && s1 = "/" && k2 = TokKind.op && s2 = "<") ||
      slashThenLess ((k2, s2) :: ts)
  | _ => false

/-- Scan for a `)` directly followed by an identifier while brackets are
still open, tracking bracket depth in the first argument. Inside an open
bracket the Python grammar separates tuple or argument list items with
commas and offers no production in which a bare identifier (keywords are
tokenized as `kwT` here, not `nameT`) directly follows a closing
parenthesis, so such a stream is rejected by the CPython parser. -/
def rparenThenNameAt : Nat → List Tok → Bool
  | d, (k, s) :: ts =>
    if k = TokKind.op && isOpenBr s then rparenThenNameAt (d + 1) ts
    else if k = TokKind.op && isCloseBr s then
      match ts with
      | (k2, _) :: _ =>
        (decide (1 ≤ d - 1) && decide (k2 = TokKind.name)) || rparenThenNameAt (d - 1) ts
      | [] => false
    else rparenThenNameAt d ts
  | _, [] => false

/-- A cell is definitely rejected by the Python compiler when one of the
conservative lexical checks above fires. The converse is not claimed:
a cell that passes these checks may still fail for other reasons. -/
def cellRejected (c : List Tok) : Bool :=
  !(bracketsBalanced c) || slashThenLess c || rparenThenNameAt 0 c

/-- Test whether the token list `r` is an initial segment of `c`. -/
def startsWithRun : List Tok → List Tok → Bool
  | _, [] => true
  | [], _ :: _ => false
  | t :: ts, r :: rs => t == r && startsWithRun ts rs

/-- Test whether the token list `run` occurs contiguously inside `c`. -/
def containsRun (c run : List Tok) : Bool :=
  startsWithRun c run ||
    match c with
    | [] => false
    | _ :: ts => containsRun ts run

/-- Python expressions, as far as the two notebook functions need them.
Keyword arguments appear in argument lists as `kwarg` nodes; a dictionary
display with string keys is `dictLit` whose entries are `kwarg` nodes
carrying the key; an f-string carries its template and the list of names
it interpolates, in template order. -/
inductive PyExpr where
  | name      : String → PyExpr
  | attr      : PyExpr → String → PyExpr
  | call      : PyExpr → List PyExpr → PyExpr
  | numLit    : String → PyExpr
  | strLit    : String → PyExpr
  | fstr      : String → List String → PyExpr
  | kwarg     : String → PyExpr → PyExpr
  | starstar  : PyExpr → PyExpr
  | subscript : PyExpr → PyExpr → PyExpr
  | binop     : String → PyExpr → PyExpr → PyExpr
  | unop      : String → PyExpr → PyExpr
  | tuple     : List PyExpr → PyExpr
  | listLit   : List PyExpr → PyExpr
  | dictLit   : List PyExpr → PyExpr
  | pyTrue    : PyExpr
  | pyFalse   : PyExpr
  | pyNone    : PyExpr

/-- Python statements, with suites as statement lists. An `ifStmt` carries
the then-suite and the else-suite (empty when the source has no `else`). -/
inductive PyStmt where
  | assign      : String → PyExpr → PyStmt
  | tupleAssign : List String → PyExpr → PyStmt
  | augAssign   : String → String → PyExpr → PyStmt
  | exprStmt    : PyExpr → PyStmt
  | ifStmt      : PyExpr → List PyStmt → List PyStmt → PyStmt
  | forLoop     : List String → PyExpr → List PyStmt → PyStmt
  | withStmt    : PyExpr → List PyStmt → PyStmt

/-- Dotted name of an attribute chain such as `os.path.join`; `none` when
the base of the chain is not a plain name. -/
def dottedName : PyExpr → Option String
  | .name s => some s
  | .attr e f =>
    match dottedName e with
    | some b => some (b ++ "." ++ f)
    | none => none
  | _ => none

/-- Label used for a call site: the dotted callee name, or a question mark
when the callee is itself a computed expression. -/
def calleeLabel (f : PyExpr) : String := (dottedName f).getD "?"

mutual

/-- Static list of the call labels occurring in an expression, in source
order. -/
def exprCallees : PyExpr → List String
  | .name _ => []
  | .attr e _ => exprCallees e
  | .call f args => exprCallees f ++ argsCallees args ++ [calleeLabel f]
  | .numLit _ => []
  | .strLit _ => []
  | .fstr _ _ => []
  | .kwarg _ e => exprCallees e
  | .starstar e => exprCallees e
  | .subscript a i => exprCallees a ++ exprCallees i
  | .binop _ a b => exprCallees a ++ exprCallees b
  | .unop _ a => exprCallees a
  | .tuple es => argsCallees es
  | .listLit es => argsCallees es
  | .dictLit es => argsCallees es
  | .pyTrue => []
  | .pyFalse => []
  | .pyNone => []

/-- Static call labels of an expression list, in order. -/
def argsCallees : List PyExpr → List String
  | [] => []
  | e :: es => exprCallees e ++ argsCallees es

end

mutual

/-- Static list of the call labels occurring anywhere in a statement,
including all nested suites. -/
def stmtCallees : PyStmt → List String
  | .assign _ e => exprCallees e
  | .tupleAssign _ e => exprCallees e
  | .augAssign _ _ e => exprCallees e
  | .exprStmt e => exprCallees e
  | .ifStmt c t f => exprCallees c ++ blockCallees t ++ blockCallees f
  | .forLoop _ it b => exprCallees it ++ blockCallees b
  | .withStmt c b => exprCallees c ++ blockCallees b

/-- Static call labels of a statement list, in order. -/
def blockCallees : List PyStmt → List String
  | [] => []
  | s :: ss => stmtCallees s ++ blockCallees ss

end

mutual

/-- Names a statement binds, anywhere in it, including nested suites and
loop targets. -/
def stmtAssigns : PyStmt → List String
  | .assign x _ => [x]
  | .tupleAssign xs _ => xs
  | .augAssign x _ _ => [x]
  | .exprStmt _ => []
  | .ifStmt _ t f => blockAssigns t ++ blockAssigns f
  | .forLoop xs _ b => xs ++ blockAssigns b
  | .withStmt _ b => blockAssigns b

/-- Names a statement list binds, anywhere in it. -/
def blockAssigns : List PyStmt → List String
  | [] => []
  | s :: ss => stmtAssigns s ++ blockAssigns ss

end

/-- Runtime errors of the name-resolution semantics: an unresolvable name,
or exhaustion of the step budget. -/
inductive PyErr where
  | nameError : String → PyErr
  | outOfFuel : PyErr
deriving DecidableEq, Repr

/-- Chain two traces: perform the second only when the first succeeds. -/
def seqTrace (a b : List String × Option PyErr) : List String × Option PyErr :=
  match a with
  | (ev1, some er) => (ev1, some er)
  | (ev1, none) => (ev1 ++ b.1, b.2)

/-- Trace of resolving the interpolated names of an f-string in order. -/
def fstrTrace (env : List String) : List String → List String × Option PyErr
  | [] => ([], none)
  | n :: ns =>
    if env.contains n then fstrTrace env ns else ([], some (.nameError n))

mutual

/-- Name-resolution trace of evaluating an expression under the set `env`
of defined names: the list of call labels of the external calls performed,
in evaluation order, and the error if one is raised. Following CPython
evaluation order, a call evaluates its callee, then its arguments left to
right, and only then performs the call (so a call whose argument fails to
resolve emits no event for that call); an attribute access evaluates its
base. Boolean operators are evaluated strictly here; the notebook code on
which this semantics is used in a proof contains none. -/
def exprTrace (env : List String) : PyExpr → List String × Option PyErr
  | .name s => ([], if env.contains s then none else some (.nameError s))
  | .attr e _ => exprTrace env e
  | .call f args =>
    let (ev1, r1) := exprTrace env f
    match r1 with
    | some er => (ev1, some er)
    | none =>
      let (ev2, r2) := argsTrace env args
      match r2 with
      | some er => (ev1 ++ ev2, some er)
      | none => (ev1 ++ ev2 ++ [calleeLabel f], none)
  | .numLit _ => ([], none)
  | .strLit _ => ([], none)
  | .fstr _ reads => fstrTrace env reads
  | .kwarg _ e => exprTrace env e
  | .starstar e => exprTrace env e
  | .subscript a i => seqTrace (exprTrace env a) (exprTrace env i)
  | .binop _ a b => seqTrace (exprTrace env a) (exprTrace env b)
  | .unop _ a => exprTrace env a
  | .tuple es => argsTrace env es
  | .listLit es => argsTrace env es
  | .dictLit es => argsTrace env es
  | .pyTrue => ([], none)
  | .pyFalse => ([], none)
  | .pyNone => ([], none)

/-- Trace of evaluating an expression list left to right, stopping at the
first error. -/
def argsTrace (env : List String) : List PyExpr → List String × Option PyErr
  | [] => ([], none)
  | e :: es => seqTrace (exprTrace env e) (argsTrace env es)

end

/-- Body of the inner `for step, batch in enumerate(train_dataloader):`
loop of `train_loop`. At the indentation the source has, this suite
consists of exactly the four assignments to `clean_images`, `noise`, `bs`
and `timesteps`. -/
def batchLoopBody : List PyStmt :=
  [.assign ("clean_images") (.subscript (.name ("batch")) (.strLit ("images"))),
   .assign ("noise")
     (.call (.attr (.name ("torch")) ("randn"))
       [.attr (.name ("clean_images")) ("shape"),
        .kwarg ("device") (.attr (.name ("clean_images")) ("device"))]),
   .assign ("bs") (.subscript (.attr (.name ("clean_images")) ("shape")) (.numLit ("0"))),
   .assign ("timesteps")
     (.call (.attr (.name ("torch")) ("randint"))
       [.numLit ("0"),
        .attr (.name ("noise_scheduler")) ("num_timesteps"),
        .tuple [.name ("bs")],
        .kwarg ("device") (.attr (.name ("clean_images")) ("device")),
        .kwarg ("dtype") (.attr (.name ("torch")) ("int64"))])]

/-- The inner batch loop statement of `train_loop`. -/
def batchLoopStmt : PyStmt :=
  .forLoop ["step", "batch"]
    (.call (.name ("enumerate")) [.name ("train_dataloader")]) batchLoopBody

/-- Suite of the `with accelerator.accumulate(model):` statement of
`train_loop`. Its first statement reads the name `noisy_images`. -/
def accumulateBody : List PyStmt :=
  [.assign ("noise_pred")
     (.subscript
       (.call (.name ("model"))
         [.name ("noisy_images"), .name ("timesteps"),
          .kwarg ("return_dict") .pyFalse])
       (.numLit ("0"))),
   .assign ("loss")
     (.call (.attr (.name ("F")) ("mse_loss")) [.name ("noise_pred"), .name ("noise")]),
   .exprStmt (.call (.attr (.name ("accelerator")) ("backward")) [.name ("loss")]),
   .ifStmt (.attr (.name ("accelerator")) ("sync_gradients"))
     [.exprStmt (.call (.attr (.name ("accelerator")) ("clip_grad_norm_"))
        [.call (.attr (.name ("model")) ("parameters")) [], .numLit ("1.0")])]
     [],
   .exprStmt (.call (.attr (.name ("optimizer")) ("step")) []),
   .exprStmt (.call (.attr (.name ("lr_scheduler")) ("step")) []),
   .exprStmt (.call (.attr (.name ("optimizer")) ("zero_grad")) [])]

/-- The gradient-update block of `train_loop`: the `with` statement over
`accelerator.accumulate(model)`. -/
def accumulateStmt : PyStmt :=
  .withStmt (.call (.attr (.name ("accelerator")) ("accumulate")) [.name ("model")])
    accumulateBody

/-- Body of the outer `for epoch in range(config.num_epochs):` loop of
`train_loop`, with the nesting exactly as the source indentation has it:
the inner batch loop contains only the four draws, and the `add_noise`
call, the gradient-update block, the progress-bar update and the logging
all sit at epoch level, after the batch loop. -/
def epochLoopBody : List PyStmt :=
  [.assign ("progress_bar")
     (.call (.name ("tqdm"))
       [.kwarg ("total") (.call (.name ("len")) [.name ("train_dataloader")]),
        .kwarg ("disable") (.unop ("not") (.attr (.name ("accelerator")) ("is_local_main_process")))]),
   .exprStmt (.call (.attr (.name ("progress_bar")) ("set_description"))
     [.fstr ("Epoch \x7bepoch\x7d") ["epoch"]]),
   batchLoopStmt,
   .assign ("noise_images")
     (.call (.attr (.name ("noise_scheduler")) ("add_noise"))
       [.name ("clean_images"), .name ("noise"), .name ("timesteps")]),
   accumulateStmt,
   .exprStmt (.call (.attr (.name ("progress_bar")) ("update")) [.numLit ("1")]),
   .assign ("logs")
     (.dictLit
       [.kwarg ("loss")
          (.call (.attr (.call (.attr (.name ("loss")) ("detach")) []) ("item")) []),
        .kwarg ("lr")
          (.subscript (.call (.attr (.name ("lr_scheduler")) ("get_last_lr")) []) (.numLit ("0"))),
        .kwarg ("step") (.name ("global_step"))]),
   .exprStmt (.call (.attr (.name ("progress_bar")) ("set_postfix")) [.starstar (.name ("logs"))]),
   .exprStmt (.call (.attr (.name ("accelerator")) ("log"))
     [.name ("logs"), .kwarg ("step") (.name ("global_step"))]),
   .augAssign ("global_step") ("+") (.numLit ("1"))]

/-- The epoch loop statement of `train_loop`. -/
def epochLoopStmt : PyStmt :=
  .forLoop ["epoch"]
    (.call (.name ("range")) [.attr (.name ("config")) ("num_epochs")]) epochLoopBody

/-- The final statement of `train_loop`, at function level after the epoch
loop: under `if accelerator.is_main_process:` it builds the pipeline and,
when the cadence test on the (post-loop) value of `epoch` passes, either
uploads the output directory or saves the pipeline into it. No call to
`evaluate` occurs anywhere in it. -/
def savePipelineStmt : PyStmt :=
  .ifStmt (.attr (.name ("accelerator")) ("is_main_process"))
    [.assign ("pipeline")
       (.call (.name ("DDPMPipeline"))
         [.kwarg ("unet") (.call (.attr (.name ("accelerator")) ("unwrap_model")) [.name ("model")]),
          .kwarg ("scheduler") (.name ("noise_scheduler"))]),
     .ifStmt
       (.binop ("or")
         (.binop ("==")
           (.binop ("%")
             (.binop ("+") (.name ("epoch")) (.numLit ("1")))
             (.attr (.name ("config")) ("save_model_epochs")))
           (.numLit ("0")))
         (.binop ("==") (.name ("epoch"))
           (.binop ("-") (.attr (.name ("config")) ("num_epochs")) (.numLit ("1")))))
       [.ifStmt (.attr (.name ("config")) ("push_to_hub"))
          [.exprStmt (.call (.name ("upload_folder"))
             [.kwarg ("repo_id") (.name ("repo_id")),
              .kwarg ("folder_path") (.attr (.name ("config")) ("output_dir")),
              .kwarg ("commit_message") (.fstr ("Epoch \x7bepoch\x7d") ["epoch"]),
              .kwarg ("ignore_patterns") (.listLit [.strLit ("step_*"), .strLit ("epoch_*")])])]
          [.exprStmt (.call (.attr (.name ("pipeline")) ("save_pretrained"))
             [.attr (.name ("config")) ("output_dir")])]]
       []]
    []

/-- Statements of `train_loop` before the epoch loop: accelerator setup,
the main-process initialisation block, `accelerator.prepare`, and
`global_step = 0`. -/
def trainLoopPrelude : List PyStmt :=
  [.assign ("accelerator")
     (.call (.name ("Accelerator"))
       [.kwarg ("mixed_precision") (.attr (.name ("config")) ("mixed_precision")),
        .kwarg ("gradient_accumulation_steps")
          (.attr (.name ("config")) ("gradient_accumulation_steps")),
        .kwarg ("log_with") (.strLit ("tensorboard")),
        .kwarg ("project_dir")
          (.call (.attr (.attr (.name ("os")) ("path")) ("join"))
            [.attr (.name ("config")) ("output_dir"), .strLit ("logs")])]),
   .ifStmt (.attr (.name ("accelerator")) ("is_main_process"))
     [.ifStmt (.binop ("is not") (.attr (.name ("config")) ("output_dir")) .pyNone)
        [.exprStmt (.call (.attr (.name ("os")) ("makedirs"))
           [.attr (.name ("config")) ("output_dir"), .kwarg ("exist_ok") .pyTrue]),
         .ifStmt (.attr (.name ("config")) ("push_to_hub"))
           [.assign ("repo_id")
              (.attr
                (.call (.name ("create_repo"))
                  [.kwarg ("repo_id")
                     (.binop ("or") (.attr (.name ("config")) ("hub_model_id"))
                       (.attr (.call (.name ("Path")) [.attr (.name ("config")) ("output_dir")])
                         ("name"))),
                   .kwarg ("exist_ok") .pyTrue])
                ("repo_id"))]
           [],
         .exprStmt (.call (.attr (.name ("accelerator")) ("init_trackers"))
           [.strLit ("train_example")])]
        []]
     [],
   .tupleAssign ["model", "optimizer", "train_dataloader", "lr_scheduler"]
     (.call (.attr (.name ("accelerator")) ("prepare"))
       [.name ("model"), .name ("optimizer"), .name ("train_dataloader"), .name ("lr_scheduler")]),
   .assign ("global_step") (.numLit ("0"))]

/-- Full body of `train_loop`: the prelude, then the epoch loop, then the
pipeline-saving statement at function level. -/
def trainLoopBody : List PyStmt :=
  trainLoopPrelude ++ [epochLoopStmt, savePipelineStmt]

/-- The parameters of `def train_loop(config, model, noise_scheduler,
optimizer, train_dataloader, lr_scheduler)`. -/
def trainLoopParams : List String :=
  ["config", "model", "noise_scheduler", "optimizer", "train_dataloader", "lr_scheduler"]

/-- Body of `evaluate(config, epoch, pipeline)`: sample a batch with a
fresh CPU generator seeded from `config.seed`, build a four-by-four image
grid, create the `test_images` directory under the output directory, and
save the grid under the epoch-numbered file name. -/
def evaluateBody : List PyStmt :=
  [.assign ("images")
     (.attr
       (.call (.name ("pipeline"))
         [.kwarg ("batch_size") (.attr (.name ("config")) ("eval_batch_size")),
          .kwarg ("generator")
            (.call
              (.attr
                (.call (.attr (.name ("torch")) ("Generator")) [.kwarg ("device") (.strLit ("cpu"))])
                ("manual_seed"))
              [.attr (.name ("config")) ("seed")])])
       ("images")),
   .assign ("image_grid")
     (.call (.name ("make_image_grid"))
       [.name ("images"), .kwarg ("rows") (.numLit ("4")), .kwarg ("cols") (.numLit ("4"))]),
   .assign ("test_dir")
     (.call (.attr (.attr (.name ("os")) ("path")) ("join"))
       [.attr (.name ("config")) ("output_dir"), .strLit ("test_images")]),
   .exprStmt (.call (.attr (.name ("os")) ("makedirs"))
     [.name ("test_dir"), .kwarg ("exist_ok") .pyTrue]),
   .exprStmt (.call (.attr (.name ("image_grid")) ("save"))
     [.fstr ("\x7btest_dir\x7d/\x7bepoch:04d\x7d.png") ["test_dir", "epoch"]])]

/-- Iterate a loop body a given number of times, threading the set of
defined names and concatenating events, stopping at the first error. -/
def iterRun (body : List String → List String × Except PyErr (List String)) :
    Nat → List String → List String × Except PyErr (List String)
  | 0, env => ([], .ok env)
  | k + 1, env =>
    match body env with
    | (ev, .error er) => (ev, .error er)
    | (ev, .ok env2) =>
      let (ev2, r) := iterRun body k env2
      (ev ++ ev2, r)

mutual

/-- Execute one statement under the set `env` of defined names, returning
the trace of call labels and either the error raised or the updated set.
Branch decisions are supplied by the truthiness oracle `tr` and loop trip
counts by the oracle `tp`, both universally quantified in the theorems
below; for-loop targets are bound at the first iteration, as in Python. -/
def stmtRun (tr : PyExpr → Bool) (tp : PyExpr → Nat) (env : List String) :
    PyStmt → List String × Except PyErr (List String)
  | .assign x e =>
    match exprTrace env e with
    | (ev, some er) => (ev, .error er)
    | (ev, none) => (ev, .ok (x :: env))
  | .tupleAssign xs e =>
    match exprTrace env e with
    | (ev, some er) => (ev, .error er)
    | (ev, none) => (ev, .ok (xs ++ env))
  | .augAssign x _ e =>
    if env.contains x then
      match exprTrace env e with
      | (ev, some er) => (ev, .error er)
      | (ev, none) => (ev, .ok env)
    else ([], .error (.nameError x))
  | .exprStmt e =>
    match exprTrace env e with
    | (ev, some er) => (ev, .error er)
    | (ev, none) => (ev, .ok env)
  | .ifStmt c t f =>
    match exprTrace env c with
    | (ev, some er) => (ev, .error er)
    | (ev, none) =>
      if tr c then
        let (ev2, r) := blockRun tr tp env t
        (ev ++ ev2, r)
      else
        let (ev2, r) := blockRun tr tp env f
        (ev ++ ev2, r)
  | .withStmt c b =>
    match exprTrace env c with
    | (ev, some er) => (ev, .error er)
    | (ev, none) =>
      let (ev2, r) := blockRun tr tp env b
      (ev ++ ev2, r)
  | .forLoop xs it b =>
    match exprTrace env it with
    | (ev, some er) => (ev, .error er)
    | (ev, none) =>
      let (ev2, r) := iterRun (fun e0 => blockRun tr tp (xs ++ e0) b) (tp it) env
      (ev ++ ev2, r)

/-- Execute a statement list in order, stopping at the first error. -/
def blockRun (tr : PyExpr → Bool) (tp : PyExpr → Nat) (env : List String) :
    List PyStmt → List String × Except PyErr (List String)
  | [] => ([], .ok env)
  | s :: ss =>
    match stmtRun tr tp env s with
    | (ev, .error er) => (ev, .error er)
    | (ev, .ok env2) =>
      let (ev2, r) := blockRun tr tp env2 ss
      (ev ++ ev2, r)

end

/-- Accesses to a field of the `config` object, derived from the token
lists: a `write f` is the token run `config . f =` (the single `=` token is
distinct from the comparison token `==`), a `read f` is any other
occurrence of `config . f`. Interpolated reads inside f-string templates
are not individual tokens and are not extracted; a field write cannot
occur inside an f-string. -/
inductive ConfigAccess where
  | read  : String → ConfigAccess
  | write : String → ConfigAccess
deriving DecidableEq, Repr

/-- Test for a write access. -/
def isWriteAccess : ConfigAccess → Bool
  | .write _ => true
  | .read _ => false

/-- Extract the `config` field accesses of one token list, in order. -/
def configOpsOf : List Tok → List ConfigAccess
  | (k1, s1) :: (k2, s2) :: (k3, f) :: ts =>
    if k1 = TokKind.name && s1 = "config" && k2 = TokKind.op && s2 = "." && k3 = TokKind.name then
      (match ts with
       | (k4, s4) :: _ =>
         if k4 = TokKind.op && s4 = "=" then ConfigAccess.write f else ConfigAccess.read f
       | [] => ConfigAccess.read f) :: configOpsOf ts
    else configOpsOf ((k2, s2) :: (k3, f) :: ts)
  | _ => []

/-- All `config` field accesses of the notebook, in notebook order. -/
def allConfigFieldOps : List ConfigAccess := (codeCells.map configOpsOf).flatten

/-- The field names bound in the body of `class TrainingConfig`, in source
order. -/
def trainingConfigFields : List String :=
  ["image_size", "train_batch_size", "eval_batch_size", "num_epochs",
   "gradient_accumulation_steps", "learning_rate", "lr_warmup_steps",
   "save_image_epochs", "save_model_epochs", "mixed_precision", "output_dir",
   "push_to_hub", "hub_model_id", "hub_private_repo", "overwrite_output_dir", "seed"]

/-- Modelled from the spec: the fields the specification sentence
enumerates for the configuration record — image resolution, train and eval
batch sizes, epoch count, learning rate, warm-up steps, checkpoint cadence
(the two save cadences), mixed-precision flag, output directory and random
seed. This list follows the wording of the specification and is the
refinement target that `trainingConfigFields` is compared against. -/
def specClaimedConfigFields : List String :=
  ["image_size", "train_batch_size", "eval_batch_size", "num_epochs",
   "learning_rate", "lr_warmup_steps", "save_image_epochs", "save_model_epochs",
   "mixed_precision", "output_dir", "seed"]

/-- Fields present in the source class but absent from the field list the
specification sentence enumerates. -/
def configFieldsBeyondSpec : List String :=
  ["gradient_accumulation_steps", "push_to_hub", "hub_model_id",
   "hub_private_repo", "overwrite_output_dir"]

/-- Python words whose presence would indicate exception handling or a
retry loop: the exception keywords and the only loop keyword other than
`for`. The scan covers keyword and identifier tokens alike. -/
def errorHandlingWords : List String := ["try", "except", "finally", "raise", "while"]

/-- Scan a cell for exception-handling or retry constructs. -/
def usesErrorHandling (c : List Tok) : Bool :=
  c.any (fun t =>
    (t.1 = TokKind.kw || t.1 = TokKind.name) && errorHandlingWords.contains t.2)

/-- Identifiers and keywords whose presence would indicate a locally
defined thread, process, lock, or other synchronization or cancellation
construct. -/
def concurrencyWords : List String :=
  ["threading", "multiprocessing", "Thread", "Process", "Lock", "RLock",
   "Semaphore", "Barrier", "Condition", "asyncio", "concurrent", "subprocess",
   "async", "await", "fork", "spawn", "Pool", "Queue", "signal"]

/-- Scan a cell for concurrency constructs. -/
def usesConcurrency (c : List Tok) : Bool :=
  c.any (fun t =>
    (t.1 = TokKind.kw || t.1 = TokKind.name) && concurrencyWords.contains t.2)

/-- Count the call sites of `notebook_launcher` in a token list: an
occurrence of the identifier directly followed by an opening parenthesis
(the import occurrence is followed by a NEWLINE, not a parenthesis). -/
def launcherCallCount : List Tok → Nat
  | (k1, s1) :: (k2, s2) :: ts =>
    (if k1 = TokKind.name && s1 = "notebook_launcher" && k2 = TokKind.op && s2 = "(" then 1 else 0)
      + launcherCallCount ((k2, s2) :: ts)
  | _ => 0

/-- Decimal digits of a natural number, padded to width four with leading
zeros: the meaning of the Python format specification `04d` for the
epoch-numbered file names. -/
def fmt04 (n : Nat) : String :=
  let s := toString n
  String.mk (List.replicate (4 - s.length) (Char.ofNat 48)) ++ s

/-- Record of one filesystem-affecting operation performed by the notebook
code: the dotted name of the call performing it, the path it targets split
into components (leading component first), and whether the files are
written by the external library rather than by a call the notebook makes
directly on a path it built. -/
structure FsOp where
  callee : String
  path : List String
  externalLib : Bool
deriving DecidableEq, Repr

/-- Filesystem operations of one call of `evaluate`, translated from its
body: `os.makedirs(test_dir, exist_ok=True)` with
`test_dir = os.path.join(config.output_dir, "test_images")`, then
`image_grid.save` on the f-string `test_dir` slash `epoch` formatted
as `04d` with suffix `.png`. -/
def evaluateFsOps (outputDir : String) (epoch : Nat) : List FsOp :=
  [⟨"os.makedirs", [outputDir, "test_images"], false⟩,
   ⟨"image_grid.save", [outputDir, "test_images", fmt04 epoch ++ ".png"], false⟩]

/-- Filesystem operations of one call of `train_loop`, translated from its
body. The `Accelerator` is constructed with
`project_dir=os.path.join(config.output_dir, "logs")` and
`accelerator.init_trackers` makes the external library write its log files
there; under `if accelerator.is_main_process:` and
`if config.output_dir is not None:` the output directory is created; after
the epoch loop, under the cadence test, `pipeline.save_pretrained` writes
the checkpoint into the output directory unless `config.push_to_hub` sends
it to the hub instead (a network upload, not a filesystem write). -/
def trainLoopFsOps (outputDir : String)
    (isMainProcess pushToHub cadenceHolds : Bool) : List FsOp :=
  [⟨"accelerator.init_trackers", [outputDir, "logs"], true⟩] ++
    (if isMainProcess then [⟨"os.makedirs", [outputDir], false⟩] else []) ++
    (if isMainProcess && cadenceHolds && !pushToHub then
      [⟨"pipeline.save_pretrained", [outputDir], false⟩]
    else [])

/-- Torch random generator, modelled by its device and its seed. -/
structure TorchGen where
  device : String
  seed : Int
deriving DecidableEq, Repr

/-- Model of `torch.Generator(device="cpu").manual_seed(s)`: a fresh CPU
generator in the state determined by the seed alone. -/
def manualSeedCpu (s : Int) : TorchGen := { device := "cpu", seed := s }

/-- Fields of the configuration record that the semantic models read,
with the types their uses require. The notebook class itself never
compiles (see the C4 theorem), so no field values are modelled. -/
structure ConfigR where
  eval_batch_size : Nat
  seed : Int
  output_dir : String

/-- Model of calling the DDPM pipeline: sampling is a deterministic
function `f` of the pipeline state, the batch size and the generator — the
documented behaviour of torch samplers, whose output is a pure function of
the generator state they consume. When a generator argument is passed the
ambient random state is left untouched; without one the pipeline would
consume the ambient state. -/
def pipelineCall {S I : Type} (f : S → Nat → TorchGen → List I)
    (st : S) (bs : Nat) (gen : Option TorchGen) (ambient : Nat) : List I × Nat :=
  match gen with
  | some g => (f st bs g, ambient)
  | none => (f st bs { device := "cpu", seed := Int.ofNat ambient }, ambient + 1)

/-- Result of one call of `evaluate`: the sampled images, the saved grid
as rows, columns and content, and the path of the file the grid is saved
under. -/
structure EvalResult (I : Type) where
  images : List I
  gridRows : Nat
  gridCols : Nat
  gridImages : List I
  savedPath : List String
deriving DecidableEq, Repr

/-- Model of `evaluate(config, epoch, pipeline)`, translated from its
body: sample `config.eval_batch_size` images passing the fresh generator
`torch.Generator(device="cpu").manual_seed(config.seed)`, arrange them in
a four-by-four grid with `make_image_grid`, and save the grid under
`config.output_dir, test_images, epoch formatted 04d dot png`. The second
component of the result is the ambient random state after the call. -/
def evaluateRun {S I : Type} (f : S → Nat → TorchGen → List I)
    (cfg : ConfigR) (epoch : Nat) (st : S) (ambient : Nat) : EvalResult I × Nat :=
  let (images, amb2) :=
    pipelineCall f st cfg.eval_batch_size (some (manualSeedCpu cfg.seed)) ambient
  ({ images := images
     gridRows := 4
     gridCols := 4
     gridImages := images
     savedPath := [cfg.output_dir, "test_images", fmt04 epoch ++ ".png"] }, amb2)

/-- C1, counterexample: the claim states that the scheduler call, the model
prediction, the loss, backpropagation, clipping, stepping and logging all
execute inside the per-batch loop; in the source none of these calls
occurs in the batch-loop suite, which contains only the four draws. -/
theorem c1_per_batch_counterexample :
    ((blockCallees batchLoopBody).contains ("noise_scheduler.add_noise") = false) ∧
    ((blockCallees batchLoopBody).contains ("model") = false) ∧
    ((blockCallees batchLoopBody).contains ("F.mse_loss") = false) ∧
    ((blockCallees batchLoopBody).contains ("accelerator.backward") = false) ∧
    ((blockCallees batchLoopBody).contains ("accelerator.clip_grad_norm_") = false) ∧
    ((blockCallees batchLoopBody).contains ("optimizer.step") = false) ∧
    ((blockCallees batchLoopBody).contains ("lr_scheduler.step") = false) ∧
    ((blockCallees batchLoopBody).contains ("accelerator.log") = false) := by
  decide

/-- C1, amended: the batch loop draws random noise and random timesteps
once per batch (its only calls are `torch.randn` and `torch.randint`),
while the `add_noise` call, the model prediction, the mean-squared-error
loss, backpropagation, gradient clipping, optimizer stepping and logging
sit in the epoch-loop suite after the batch loop, each occurring exactly
once per epoch. -/
theorem c1_training_steps_once_per_epoch :
    blockCallees batchLoopBody = ["torch.randn", "torch.randint"] ∧
    epochLoopBody = epochLoopBody.take 2 ++ [batchLoopStmt] ++ epochLoopBody.drop 3 ∧
    (["noise_scheduler.add_noise", "model", "F.mse_loss", "accelerator.backward",
      "accelerator.clip_grad_norm_", "optimizer.step", "lr_scheduler.step",
      "accelerator.log"].all
      (fun c => (blockCallees (epochLoopBody.drop 3)).contains c
        && (blockCallees epochLoopBody).count c == 1)) = true :=
  ⟨by decide, rfl, by decide⟩

/-- C2, counterexample: the claim states that after construction no
operation assigns to any field of `config`; the dataset cell performs the
field assignment `config.dataset_name = ...`. -/
theorem c2_config_write_counterexample :
    allConfigFieldOps.contains (ConfigAccess.write ("dataset_name")) = true := by
  decide

/-- C2, amended: the only field assignment on `config` after construction
is the single write installing the new field `dataset_name` in the dataset
cell; no field bound in the class body is ever written after construction,
and `dataset_name` is not one of the fields the class body binds. -/
theorem c2_config_fields_read_only_except_dataset_name :
    (allConfigFieldOps.filter isWriteAccess) = [ConfigAccess.write ("dataset_name")] ∧
    (trainingConfigFields.all
      (fun f => !(allConfigFieldOps.contains (ConfigAccess.write f)))) = true ∧
    trainingConfigFields.contains ("dataset_name") = false := by
  refine ⟨by decide, by decide, by decide⟩

/-- C3: contrary to the claim (and to the comment in the source directly
above the block), `train_loop` never calls `evaluate`, never reads
`config.save_image_epochs`, and its pipeline-saving block is not part of
the epoch-loop suite: it is the final statement of the function, after the
epoch loop, so the model is saved at most once per run. -/
theorem c3_save_outside_loop_evaluate_never_called :
    (blockCallees trainLoopBody).contains ("evaluate") = false ∧
    (configOpsOf cellTrainLoopDef).contains (ConfigAccess.read ("save_image_epochs")) = false ∧
    (blockCallees epochLoopBody).contains ("pipeline.save_pretrained") = false ∧
    (blockCallees epochLoopBody).contains ("upload_folder") = false ∧
    stmtCallees savePipelineStmt =
      ["accelerator.unwrap_model", "DDPMPipeline", "upload_folder", "pipeline.save_pretrained"] ∧
    trainLoopBody = trainLoopPrelude ++ [epochLoopStmt, savePipelineStmt] :=
  ⟨by decide, by decide, by decide, by decide, by decide, rfl⟩

/-- C4: three code cells are rejected by the Python compiler — the
configuration cell (the `/` `<` adjacency on the `hub_model_id` line), the
model cell (a closing parenthesis directly followed by `up_block_types`
inside an open argument list) and the optimizer cell (an argument list
never closed before the end of the cell). A cell is compiled as a whole
before any of it runs, so a sequential run of the notebook stops at the
first rejected cell, index 1 of the sixteen code cells, and never reaches
the final code cell, index 15. -/
theorem c4_syntax_errors_abort_before_final_cell :
    (codeCells.filter (fun c => cellRejected c)).length = 3 ∧
    codeCells.findIdx (fun c => cellRejected c) = 1 ∧
    cellRejected cellConfig = true ∧
    cellRejected cellUNetModel = true ∧
    cellRejected cellOptimizer = true ∧
    codeCells.findIdx (fun c => cellRejected c) < codeCells.length - 1 := by
  refine ⟨by decide, by decide, by decide, by decide, by decide, by decide⟩

/-- C5: no code cell of the notebook contains any of the exception
keywords `try`, `except`, `finally`, `raise`, nor even a `while` loop that
could retry, so the notebook defines no handler, retry or recovery path
and every exception raised by a library call propagates to the top
level. -/
theorem c5_no_error_handling_anywhere :
    (codeCells.all (fun c => !(usesErrorHandling c))) = true := by
  decide

/-- C6: the name `noisy_images` is bound nowhere in `train_loop` (the
scheduler output is bound to `noise_images`) and no cell of the notebook
ever assigns to it, so no global fallback exists either; consequently,
executing the gradient-update block under any set of defined names that
does not include `noisy_images` (but does include the names `accelerator`
and `model`, which are defined there on every run) performs only the
`accelerator.accumulate` context call and then raises a NameError for
`noisy_images` while evaluating the first argument of the model call — the
model itself is never called and the training step can never complete. -/
theorem c6_accumulate_block_nameerror (tr : PyExpr → Bool) (tp : PyExpr → Nat)
    (env : List String)
    (hn : env.contains ("noisy_images") = false)
    (ha : env.contains ("accelerator") = true)
    (hm : env.contains ("model") = true) :
    (blockAssigns trainLoopBody).contains ("noisy_images") = false ∧
    (codeCells.all (fun c => !(containsRun c [nameT ("noisy_images"), opT ("=")]))) = true ∧
    stmtRun tr tp env accumulateStmt =
      (["accelerator.accumulate"], .error (.nameError ("noisy_images"))) := by
  refine ⟨by decide, by decide, ?_⟩
  have ha2 : "accelerator" ∈ env := by simpa using ha
  have hm2 : "model" ∈ env := by simpa using hm
  have hn2 : "noisy_images" ∉ env := by simpa using hn
  simp [stmtRun, blockRun, exprTrace, argsTrace, seqTrace, accumulateStmt, accumulateBody,
    calleeLabel, dottedName, ha2, hm2, hn2]

/-- C6, witness: the accumulate block raises the NameError at the concrete
environment holding the function parameters read before the failure. -/
theorem c6_accumulate_block_nameerror_witness :
    stmtRun (fun _ => true) (fun _ => 0) ["accelerator", "model", "timesteps"]
      accumulateStmt =
      (["accelerator.accumulate"], .error (.nameError ("noisy_images"))) :=
  (c6_accumulate_block_nameerror (fun _ => true) (fun _ => 0)
    ["accelerator", "model", "timesteps"] (by decide) (by decide) (by decide)).2.2

/-- C7, counterexample: the claim states the configuration record has no
fields beyond the enumerated ones; the class body also binds
`gradient_accumulation_steps` (and four hub-related fields). -/
theorem c7_config_fields_counterexample :
    trainingConfigFields.contains ("gradient_accumulation_steps") = true ∧
    specClaimedConfigFields.contains ("gradient_accumulation_steps") = false ∧
    containsRun cellConfig [nameT ("gradient_accumulation_steps"), opT ("=")] = true := by
  refine ⟨by decide, by decide, by decide⟩

/-- C7, amended: the configuration record binds exactly the fields the
specification enumerates plus `gradient_accumulation_steps`,
`push_to_hub`, `hub_model_id`, `hub_private_repo` and
`overwrite_output_dir`; every listed field indeed appears as an assignment
in the class cell. -/
theorem c7_config_fields_exact :
    (trainingConfigFields.all (fun f => containsRun cellConfig [nameT f, opT ("=")])) = true ∧
    (specClaimedConfigFields.all (fun f => trainingConfigFields.contains f)) = true ∧
    (configFieldsBeyondSpec.all (fun f => trainingConfigFields.contains f)) = true ∧
    (trainingConfigFields.all
      (fun f => specClaimedConfigFields.contains f || configFieldsBeyondSpec.contains f)) = true := by
  refine ⟨by decide, by decide, by decide, by decide⟩

/-- C8: every filesystem operation the notebook functions perform —
directory creation and the grid save in `evaluate`, log files, directory
creation and the checkpoint save in `train_loop`, under every combination
of the guarding conditions — targets a path whose leading component is the
configured output directory, and the only file-creating operations the
notebook performs itself are the image-grid save and the checkpoint
save. -/
theorem c8_fs_writes_under_output_dir (outputDir : String) (epoch : Nat)
    (isMainProcess pushToHub cadenceHolds : Bool) :
    ((evaluateFsOps outputDir epoch ++
        trainLoopFsOps outputDir isMainProcess pushToHub cadenceHolds).all
      (fun w => w.path.head? == some outputDir)) = true ∧
    ((evaluateFsOps outputDir epoch ++
        trainLoopFsOps outputDir isMainProcess pushToHub cadenceHolds).all
      (fun w => w.externalLib || w.callee == "os.makedirs"
        || w.callee == "image_grid.save" || w.callee == "pipeline.save_pretrained")) = true := by
  cases isMainProcess <;> cases pushToHub <;> cases cadenceHolds <;>
    simp [evaluateFsOps, trainLoopFsOps]

/-- C9: `evaluate` passes the pipeline a fresh CPU generator seeded with
`config.seed` (statically, its body constructs
`torch.Generator(device=cpu).manual_seed(config.seed)` before the pipeline
call event), so two calls with the same configuration and pipeline state
return identical images and identical grid content whatever the ambient
random state of the training loop is, the ambient state is left untouched,
and the saved file differs only in the epoch-numbered name. -/
theorem c9_evaluate_deterministic {S I : Type} (f : S → Nat → TorchGen → List I)
    (cfg : ConfigR) (e1 e2 : Nat) (st : S) (r1 r2 : Nat) :
    (evaluateRun f cfg e1 st r1).1.images = (evaluateRun f cfg e2 st r2).1.images ∧
    (evaluateRun f cfg e1 st r1).1.gridImages = (evaluateRun f cfg e2 st r2).1.gridImages ∧
    (evaluateRun f cfg e1 st r1).2 = r1 ∧
    (evaluateRun f cfg e1 st r1).1.images = f st cfg.eval_batch_size (manualSeedCpu cfg.seed) ∧
    (evaluateRun f cfg e1 st r1).1.savedPath =
      [cfg.output_dir, "test_images", fmt04 e1 ++ ".png"] ∧
    blockCallees evaluateBody =
      ["torch.Generator", "?", "pipeline", "make_image_grid", "os.path.join",
       "os.makedirs", "image_grid.save"] :=
  ⟨rfl, rfl, rfl, rfl, rfl, by decide⟩

/-- C10: the identifier `notebook_launcher` is called at exactly one place
in the notebook, with the arguments `train_loop`, `args` and
`num_processes=1`, and no cell mentions any thread, process, lock, pool,
queue, signal or async construct, so the repository defines no scheduling,
synchronization or cancellation logic of its own. -/
theorem c10_single_launcher_no_concurrency :
    (codeCells.map launcherCallCount).sum = 1 ∧
    containsRun cellLauncher
      [nameT ("notebook_launcher"), opT ("("), nameT ("train_loop"), opT (","),
       nameT ("args"), opT (","), nameT ("num_processes"), opT ("="), numT ("1"), opT (")")] = true ∧
    (codeCells.all (fun c => !(usesConcurrency c))) = true := by
  refine ⟨by decide, by decide, by decide⟩

end TrainExp
